import Mathlib

/-!
Verification of the wiz-mcp diagnostic scripts (remoteMCP.py, wizmcp.py).

We shallowly embed the two scripts: strings are `List Char`, byte strings
are `List Nat` (each element < 256), JSON values are an inductive `JValue`,
and each workflow (the AWS-CLI runner, the boto3 runner, and the streaming
MCP session) is a total Lean function from an abstract environment — the
outcomes of its external collaborators (subprocess, SDK call, network
session, filesystem) — to a trace of observable events (console prints,
process exit, network attempts, file reads).
-/

set_option maxRecDepth 4000

/-- Left and right curly brace characters, used when building JSON text. -/
def lbrace : Char := Char.ofNat 123

def rbrace : Char := Char.ofNat 125

/-- Concatenation of the images of a list-valued function, i.e. flat-map. -/
def flatMapL {α β : Type} (f : α → List β) : List α → List β
  | [] => []
  | a :: rest => f a ++ flatMapL f rest

/-- UTF-8 encoding of one character (model of Python str.encode per char). -/
def utf8EncodeChar (c : Char) : List Nat :=
  let n := c.toNat
  if n < 128 then [n]
  else if n < 2048 then [192 + n / 64, 128 + n % 64]
  else if n < 65536 then [224 + n / 4096, 128 + n / 64 % 64, 128 + n % 64]
  else [240 + n / 262144, 128 + n / 4096 % 64, 128 + n / 64 % 64, 128 + n % 64]

/-- UTF-8 encoding of a string, modelling Python bytes via str.encode(). -/
def utf8Encode (s : List Char) : List Nat := flatMapL utf8EncodeChar s

/-- Tests whether a byte is a UTF-8 continuation byte (10xxxxxx). -/
def isContByte (b : Nat) : Bool := 128 ≤ b && b < 192

/-- UTF-8 decoding of a byte list, modelling Python bytes.decode(). Returns
none on malformed sequences (surrogate-range checks are not modelled; no
input in this development produces them). -/
def utf8Decode : List Nat → Option (List Char)
  | [] => some []
  | b :: rest =>
    if b < 128 then (utf8Decode rest).map (fun s => Char.ofNat b :: s)
    else
      match rest with
      | [] => none
      | b2 :: rest2 =>
        if 192 ≤ b && b < 224 && isContByte b2 then
          (utf8Decode rest2).map (fun s => Char.ofNat ((b - 192) * 64 + (b2 - 128)) :: s)
        else
          match rest2 with
          | [] => none
          | b3 :: rest3 =>
            if 224 ≤ b && b < 240 && isContByte b2 && isContByte b3 then
              (utf8Decode rest3).map
                (fun s => Char.ofNat ((b - 224) * 4096 + (b2 - 128) * 64 + (b3 - 128)) :: s)
            else
              match rest3 with
              | [] => none
              | b4 :: rest4 =>
                if 240 ≤ b && b < 248 && isContByte b2 && isContByte b3 && isContByte b4 then
                  (utf8Decode rest4).map
                    (fun s => Char.ofNat ((b - 240) * 262144 + (b2 - 128) * 4096
                      + (b3 - 128) * 64 + (b4 - 128)) :: s)
                else none

/-- Standard base64 alphabet, as used by Python base64.b64encode. -/
def b64Alphabet : List Char :=
  "ABCDEFGHIJKLMNOPQRSTUVWXYZabcdefghijklmnopqrstuvwxyz0123456789+/".toList

/-- Character for a 6-bit group. -/
def b64CharOf (n : Nat) : Char := b64Alphabet.getD n '?'

/-- Base64 encoding of a byte list with padding (Python base64.b64encode). -/
def b64Encode : List Nat → List Char
  | [] => []
  | [a] => [b64CharOf (a / 4), b64CharOf (a % 4 * 16), '=', '=']
  | [a, b] => [b64CharOf (a / 4), b64CharOf (a % 4 * 16 + b / 16), b64CharOf (b % 16 * 4), '=']
  | a :: b :: c :: rest =>
    b64CharOf (a / 4) :: b64CharOf (a % 4 * 16 + b / 16) ::
      b64CharOf (b % 16 * 4 + c / 64) :: b64CharOf (c % 64) :: b64Encode rest

/-- Index of a character in the base64 alphabet. -/
def b64ValOf (c : Char) : Option Nat :=
  let rec go : List Char → Nat → Option Nat
    | [], _ => none
    | a :: rest, i => if a = c then some i else go rest (i + 1)
  go b64Alphabet 0

/-- Base64 decoding of a padded base64 text back to bytes (Python
base64.b64decode on well-formed input; none on malformed input). -/
def b64Decode : List Char → Option (List Nat)
  | [] => some []
  | p :: q :: r :: s :: rest =>
    match b64ValOf p, b64ValOf q with
    | some a, some b =>
      if r = '=' && s = '=' && rest = [] then some [a * 4 + b / 16]
      else
        match b64ValOf r with
        | some c =>
          if s = '=' && rest = [] then some [a * 4 + b / 16, b % 16 * 16 + c / 4]
          else
            match b64ValOf s, b64Decode rest with
            | some d, some tail =>
              some ((a * 4 + b / 16) :: (b % 16 * 16 + c / 4) :: (c % 4 * 64 + d) :: tail)
            | _, _ => none
        | none => none
    | _, _ => none
  | _ => none

/-- JSON values, as produced by Python json.loads on the inputs this
development evaluates: objects keep field order (insertion order in Python
dicts), numbers are integers (the scripts only build and parse integer
numbers; floats never arise). -/
inductive JValue : Type
  | jnull : JValue
  | jbool : Bool → JValue
  | jnum : Int → JValue
  | jstr : List Char → JValue
  | jarr : List JValue → JValue
  | jobj : List (List Char × JValue) → JValue

/-- Escaping of one character inside a JSON string literal, as json.dumps
does for the characters arising here (other control characters and the
ensure_ascii non-ASCII escaping never arise in this program's payloads). -/
def jsonEscapeChar (c : Char) : List Char :=
  if c = '"' then ['\\', '"']
  else if c = '\\' then ['\\', '\\']
  else if c = '\n' then ['\\', 'n']
  else if c = '\t' then ['\\', 't']
  else if c = '\r' then ['\\', 'r']
  else [c]

mutual

/-- Compact JSON serialization with the default json.dumps separators
(comma-space and colon-space). -/
def renderJ : JValue → List Char
  | .jnull => "null".toList
  | .jbool b => if b then "true".toList else "false".toList
  | .jnum n => (toString n).toList
  | .jstr s => '"' :: flatMapL jsonEscapeChar s ++ ['"']
  | .jarr xs => '[' :: renderArr xs ++ [']']
  | .jobj fs => lbrace :: renderObj fs ++ [rbrace]

def renderArr : List JValue → List Char
  | [] => []
  | [x] => renderJ x
  | x :: y :: rest => renderJ x ++ ", ".toList ++ renderArr (y :: rest)

def renderObj : List (List Char × JValue) → List Char
  | [] => []
  | [(k, v)] => '"' :: flatMapL jsonEscapeChar k ++ ['"'] ++ ": ".toList ++ renderJ v
  | (k, v) :: f :: rest =>
    '"' :: flatMapL jsonEscapeChar k ++ ['"'] ++ ": ".toList ++ renderJ v
      ++ ", ".toList ++ renderObj (f :: rest)

end

/-- Whitespace skipping used by the JSON parser. -/
def skipWs : List Char → List Char
  | [] => []
  | c :: rest => if c = ' ' || c = '\n' || c = '\t' || c = '\r' then skipWs rest else c :: rest

/-- Body of a JSON string literal after the opening quote: returns the
decoded characters and the remainder after the closing quote. The fuel is
an upper bound on the characters consumed. Unicode escapes are not
modelled (no input here contains them). -/
def parseStrBody : Nat → List Char → Option (List Char × List Char)
  | 0, _ => none
  | _ + 1, [] => none
  | fuel + 1, c :: rest =>
    if c = '"' then some ([], rest)
    else if c = '\\' then
      match rest with
      | [] => none
      | e :: rest2 =>
        let dec : Option Char :=
          if e = '"' then some '"'
          else if e = '\\' then some '\\'
          else if e = '/' then some '/'
          else if e = 'n' then some '\n'
          else if e = 't' then some '\t'
          else if e = 'r' then some '\r'
          else none
        match dec with
        | none => none
        | some d =>
          match parseStrBody fuel rest2 with
          | none => none
          | some (s, rem) => some (d :: s, rem)
    else
      match parseStrBody fuel rest with
      | none => none
      | some (s, rem) => some (c :: s, rem)

/-- Numeric value of a digit string. -/
def digitsToNat (ds : List Char) : Nat :=
  ds.foldl (fun a c => a * 10 + (c.toNat - 48)) 0

/-- Integer literal parser (sign and digits; fractional and exponent forms
would be floats, which never arise in this program). -/
def parseNum (s : List Char) : Option (Int × List Char) :=
  let signed : Bool × List Char :=
    match s with
    | '-' :: rest => (true, rest)
    | _ => (false, s)
  let ds := signed.2.takeWhile Char.isDigit
  let rest := signed.2.dropWhile Char.isDigit
  if ds = [] then none
  else
    let n : Int := Int.ofNat (digitsToNat ds)
    some (if signed.1 then -n else n, rest)

mutual

/-- JSON value parser with fuel bounding the nesting depth. -/
def parseValue : Nat → List Char → Option (JValue × List Char)
  | 0, _ => none
  | fuel + 1, s0 =>
    let s := skipWs s0
    if "null".toList.isPrefixOf s then some (.jnull, s.drop 4)
    else if "true".toList.isPrefixOf s then some (.jbool true, s.drop 4)
    else if "false".toList.isPrefixOf s then some (.jbool false, s.drop 5)
    else
      match s with
      | [] => none
      | c :: rest =>
        if c = '"' then
          match parseStrBody (rest.length + 1) rest with
          | some (str, rem) => some (.jstr str, rem)
          | none => none
        else if c = '[' then
          match skipWs rest with
          | ']' :: rem => some (.jarr [], rem)
          | _ =>
            match parseElems fuel rest with
            | some (xs, rem) => some (.jarr xs, rem)
            | none => none
        else if c = lbrace then
          match skipWs rest with
          | d :: rem =>
            if d = rbrace then some (.jobj [], rem)
            else
              match parseMembers fuel rest with
              | some (fs, rem2) => some (.jobj fs, rem2)
              | none => none
          | [] => none
        else
          match parseNum s with
          | some (n, rem) => some (.jnum n, rem)
          | none => none

/-- Comma-separated array elements up to the closing bracket. -/
def parseElems : Nat → List Char → Option (List JValue × List Char)
  | 0, _ => none
  | fuel + 1, s =>
    match parseValue fuel s with
    | none => none
    | some (v, rem) =>
      match skipWs rem with
      | ',' :: rem2 =>
        match parseElems fuel rem2 with
        | some (vs, rem3) => some (v :: vs, rem3)
        | none => none
      | ']' :: rem2 => some ([v], rem2)
      | _ => none

/-- Comma-separated object members up to the closing brace. -/
def parseMembers : Nat → List Char → Option (List (List Char × JValue) × List Char)
  | 0, _ => none
  | fuel + 1, s =>
    match skipWs s with
    | [] => none
    | c :: rest =>
      if c = '"' then
        match parseStrBody (rest.length + 1) rest with
        | none => none
        | some (k, rem) =>
          match skipWs rem with
          | ':' :: rem2 =>
            match parseValue fuel rem2 with
            | none => none
            | some (v, rem3) =>
              match skipWs rem3 with
              | [] => none
              | d :: rem4 =>
                if d = ',' then
                  match parseMembers fuel rem4 with
                  | some (fs, rem5) => some ((k, v) :: fs, rem5)
                  | none => none
                else if d = rbrace then some ([(k, v)], rem4)
                else none
          | _ => none
      else none

end

/-- Top-level JSON parse (model of Python json.loads): the whole input must
be one value followed only by whitespace. -/
def parseTop (s : List Char) : Option JValue :=
  match parseValue (s.length + 1) s with
  | some (v, rem) => if skipWs rem = [] then some v else none
  | none => none

/-- Diagnostic request payload built by test_with_aws_cli
(remoteMCP.py lines 19-28): the dict literal in its insertion order. -/
def awsCliPayload : JValue :=
  .jobj [("jsonrpc".toList, .jstr "2.0".toList),
         ("id".toList, .jnum 1),
         ("method".toList, .jstr "tools/list".toList),
         ("params".toList, .jobj [("_meta".toList, .jobj [("progressToken".toList, .jnum 1)])])]

/-- Serialized payload text of test_with_aws_cli (payload_json, line 30). -/
def awsCliPayloadJson : List Char := renderJ awsCliPayload

/-- Base64-encoded payload of test_with_aws_cli (payload_base64, line 31). -/
def awsCliPayloadBase64 : List Char := b64Encode (utf8Encode awsCliPayloadJson)

/-- Observable events of a workflow run: console prints (plain text, a
pretty-printed JSON value, or a traceback dump), process exit, an attempt
to reach the network or an external process, and an attempt to read a
local file. -/
inductive Event : Type
  | printE : List Char → Event
  | printJson : JValue → Event
  | printKeys : List (List Char) → Event
  | tracebackE : List Char → Event
  | exitE : Nat → Event
  | netAttempt : Event
  | readFileAttempt : List Char → Event

/-- Result of running a workflow: either it ran to completion producing a
trace, or an exception escaped it uncaught (with the trace so far). -/
inductive RunOutcome : Type
  | finished : List Event → RunOutcome
  | uncaught : List Char → List Event → RunOutcome

/-- Python truthiness test used by the scripts on optional env strings:
None and the empty string are falsy. -/
def pyFalsy : Option (List Char) → Bool
  | none => true
  | some s => s.isEmpty

/-- Python str.replace: leftmost non-overlapping occurrences of old are
replaced by new. The scripts only call it with nonempty old; for empty old
this model leaves the string unchanged. -/
def pyReplace (old new : List Char) : List Char → List Char
  | [] => []
  | c :: rest =>
    if h : old ≠ [] ∧ old.isPrefixOf (c :: rest) then
      new ++ pyReplace old new ((c :: rest).drop old.length)
    else c :: pyReplace old new rest
termination_by s => s.length
decreasing_by
  · have hpos : 0 < old.length := List.length_pos.mpr h.1
    simp only [List.length_drop, List.length_cons]
    omega
  · simp [List.length_cons]

/-- Python substring containment (the in operator on strings). -/
def containsSub : List Char → List Char → Bool
  | [], pat => pat.isEmpty
  | s@(_ :: rest), pat => pat.isPrefixOf s || containsSub rest pat

/-- Configuration error message of wizmcp.py line 17. -/
def wizCfgError : List Char :=
  "Error: AGENT_ARN or BEARER_TOKEN environment variable is not set".toList

/-- Percent-encoding step of wizmcp.py line 20: replace every colon, then
every slash, in the agent ARN. -/
def encodeArn (arn : List Char) : List Char :=
  pyReplace "/".toList "%2F".toList (pyReplace ":".toList "%3A".toList arn)

/-- Endpoint URL of wizmcp.py line 21. -/
def wizUrl (arn : List Char) : List Char :=
  "https://bedrock-agentcore.us-east-1.amazonaws.com/runtimes/".toList
    ++ encodeArn arn ++ "/invocations?qualifier=DEFAULT".toList

/-- Long-term-credential warning prints of wizmcp.py lines 31-34: emitted
exactly when the bearer token starts with AKIA or ASIA. -/
def wizWarnEvents (tok : List Char) : List Event :=
  if "AKIA".toList.isPrefixOf tok || "ASIA".toList.isPrefixOf tok then
    [.printE "⚠️  WARNING: Your token looks like an AWS Access Key ID, not a session token.".toList,
     .printE "   For Bedrock agent invocation, you typically need a session token.".toList,
     .printE "   Session tokens are much longer and start with characters like 'IQoJb3JpZ2luX2VjE'".toList]
  else []

/-- Substring classification of the caught exception text, wizmcp.py lines
59-71: unauthorized, then forbidden, then timeout; purely prints. -/
def wizClassifyEvents (e : List Char) : List Event :=
  if containsSub e "401".toList || containsSub e "Unauthorized".toList then
    [.printE "\n🔍 This looks like an authentication error. Try:".toList,
     .printE "   1. Make sure you're using a session token, not an access key".toList,
     .printE "   2. Get a session token with: aws sts get-session-token".toList,
     .printE "   3. Use the SessionToken value from the response".toList]
  else if containsSub e "403".toList || containsSub e "Forbidden".toList then
    [.printE "\n🔍 This looks like a permissions error. Check:".toList,
     .printE "   1. Your AWS credentials have bedrock:InvokeAgent permission".toList,
     .printE "   2. The agent ARN is correct".toList]
  else if containsSub (e.map Char.toLower) "timeout".toList then
    [.printE "\n🔍 This looks like a timeout. Try:".toList,
     .printE "   1. Check your internet connection".toList,
     .printE "   2. Verify the agent ARN and region are correct".toList]
  else []

/-- Error-handler prints of the except block, wizmcp.py lines 53-71. -/
def wizErrorEvents (e : List Char) : List Event :=
  [.printE ("❌ Error connecting to MCP server: ".toList ++ e),
   .printE "\nDetailed error traceback:".toList,
   .tracebackE e] ++ wizClassifyEvents e

/-- Outcome of the streaming block of wizmcp.py lines 39-52, as seen from
outside: the stage at which an exception was raised (with its text), or
success with the rendering of the retrieved tools list. -/
inductive WizStreamOutcome : Type
  | connectFail : List Char → WizStreamOutcome
  | sessionFail : List Char → WizStreamOutcome
  | initFail : List Char → WizStreamOutcome
  | listToolsFail : List Char → WizStreamOutcome
  | ok : List Char → WizStreamOutcome

/-- Events of the try block of wizmcp.py lines 38-71: each network step is
a netAttempt; an exception at any stage falls to the except block. -/
def wizStreamEvents : WizStreamOutcome → List Event
  | .connectFail e => [.netAttempt] ++ wizErrorEvents e
  | .sessionFail e =>
    [.netAttempt, .printE "✅ Successfully established connection streams".toList]
      ++ wizErrorEvents e
  | .initFail e =>
    [.netAttempt, .printE "✅ Successfully established connection streams".toList,
     .printE "✅ Created MCP client session".toList, .netAttempt] ++ wizErrorEvents e
  | .listToolsFail e =>
    [.netAttempt, .printE "✅ Successfully established connection streams".toList,
     .printE "✅ Created MCP client session".toList, .netAttempt,
     .printE "✅ Session initialized".toList, .netAttempt] ++ wizErrorEvents e
  | .ok toolsText =>
    [.netAttempt, .printE "✅ Successfully established connection streams".toList,
     .printE "✅ Created MCP client session".toList, .netAttempt,
     .printE "✅ Session initialized".toList, .netAttempt,
     .printE "✅ Retrieved tools list".toList,
     .printE "\nTools available:".toList, .printE toolsText]

/-- Environment of one wizmcp.py run: the two env vars and the abstract
outcome of the streaming block. -/
structure WizEnv : Type where
  agentArn : Option (List Char)
  bearerToken : Option (List Char)
  outcome : WizStreamOutcome

/-- Trace of wizmcp.py main after the configuration check passed. -/
def wizNormalTrace (arn tok : List Char) (out : WizStreamOutcome) : List Event :=
  [.printE ("Invoking: ".toList ++ wizUrl arn),
   .printE ("Using bearer token: ".toList ++ tok.take 20 ++ "...".toList)]
    ++ wizWarnEvents tok ++ [.printE []] ++ wizStreamEvents out

/-- Streaming-session workflow: wizmcp.py main (lines 13-71). -/
def wizMain (env : WizEnv) : RunOutcome :=
  if pyFalsy env.agentArn || pyFalsy env.bearerToken then
    .finished [.printE wizCfgError, .exitE 1]
  else
    .finished (wizNormalTrace (env.agentArn.getD []) (env.bearerToken.getD []) env.outcome)

/-- Per-character percent-encoding map as the spec states it (section 8):
a colon becomes %3A, a slash becomes %2F, every other character is left
unchanged. -/
def percentEncodeSpecChar (c : Char) : List Char :=
  if c = ':' then "%3A".toList else if c = '/' then "%2F".toList else [c]

/-- Long-term-credential prefixes the code checks for (wizmcp.py line 31). -/
def longTermPrefixes : List (List Char) := ["AKIA".toList, "ASIA".toList]

/-- Agent runtime ARN of remoteMCP.py line 13. -/
def awsCliArn : List Char :=
  "arn:aws:bedrock-agentcore:us-east-1:148761662843:runtime/hosted_agent_81uak-ooea6W8teV".toList

/-- Prints of test_with_aws_cli before the subprocess call
(remoteMCP.py lines 15-54). -/
def awsCliPreEvents : List Event :=
  [.printE "🔍 Testing with official AWS CLI method (from Wiz docs)...".toList,
   .printE ("Agent Runtime ARN: ".toList ++ awsCliArn ++ "\n".toList),
   .printE ("📤 Payload: ".toList ++ awsCliPayloadJson),
   .printE ("📦 Base64 encoded: ".toList ++ awsCliPayloadBase64.take 50 ++ "...\n".toList),
   .printE "🚀 Running AWS CLI command:".toList,
   .printE ("   aws bedrock-agentcore invoke-agent-runtime --agent-runtime-arn ".toList
     ++ awsCliArn ++ " \\".toList),
   .printE ("     --agent-runtime-arn ".toList ++ awsCliArn ++ " \\".toList),
   .printE "     --content-type 'application/json' \\".toList,
   .printE "     --accept 'application/json, text/event-stream' \\".toList,
   .printE ("     --payload '".toList ++ awsCliPayloadBase64.take 30 ++ "...' \\".toList),
   .printE "     --qualifier 'DEFAULT' \\".toList,
   .printE "     output.json\n".toList]

/-- Outcome of the subprocess.run call of remoteMCP.py lines 58-63:
normal completion with a return code and captured streams, a timeout
(subprocess.TimeoutExpired), or some other exception. -/
inductive ProcResult : Type
  | completed : Int → List Char → List Char → ProcResult
  | timedOut : ProcResult
  | raised : List Char → ProcResult

/-- Environment of one test_with_aws_cli run: the subprocess outcome and
the contents of output.json on disk (none when the file is absent). -/
structure CliEnv : Type where
  proc : ProcResult
  outputFile : Option (List Char)

/-- Guidance categories of the substring classification of
remoteMCP.py lines 93-98. -/
inductive Guidance : Type
  | accessDenied : Guidance
  | validationError : Guidance
  | resourceNotFound : Guidance
deriving DecidableEq

/-- Substring classification of the captured stderr on non-zero exit
(remoteMCP.py lines 93-98): an if/elif chain checking AccessDenied, then
ValidationException, then ResourceNotFound. -/
def cliClassify (stderr : List Char) : Option Guidance :=
  if containsSub stderr "AccessDenied".toList then some .accessDenied
  else if containsSub stderr "ValidationException".toList then some .validationError
  else if containsSub stderr "ResourceNotFound".toList then some .resourceNotFound
  else none

/-- Guidance prints corresponding to the classification. -/
def cliGuidanceEvents (stderr : List Char) : List Event :=
  match cliClassify stderr with
  | some .accessDenied =>
    [.printE "\n🔍 Access denied - this suggests permissions issue".toList]
  | some .validationError =>
    [.printE "\n🔍 Validation error - check agent ARN and payload format".toList]
  | some .resourceNotFound =>
    [.printE "\n🔍 Resource not found - check agent ARN".toList]
  | none => []

/-- Events of reading and parsing output.json after a zero exit status
(remoteMCP.py lines 68-85): open the file (FileNotFoundError is reported,
not raised), print its contents, then try json.loads with a raw-text
fallback. -/
def cliReadEvents (file : Option (List Char)) : List Event :=
  [.readFileAttempt "output.json".toList] ++
    match file with
    | none => [.printE "❌ Output file not created".toList]
    | some content =>
      [.printE "📄 Output file contents:".toList, .printE content] ++
        match parseTop content with
        | some j => [.printE "\n📋 Parsed JSON response:".toList, .printJson j]
        | none => [.printE "\n📝 Raw output (not JSON):".toList, .printE content]

/-- Events after the subprocess call of test_with_aws_cli
(remoteMCP.py lines 65-104). -/
def cliProcEvents (env : CliEnv) : List Event :=
  match env.proc with
  | .completed rc out err =>
    if rc = 0 then
      [.printE "✅ AWS CLI command succeeded!".toList] ++ cliReadEvents env.outputFile
    else
      [.printE "❌ AWS CLI command failed!".toList,
       .printE ("Return code: ".toList ++ (toString rc).toList),
       .printE ("STDOUT: ".toList ++ out),
       .printE ("STDERR: ".toList ++ err)] ++ cliGuidanceEvents err
  | .timedOut =>
    [.printE "⏱️  Command timed out after 2 minutes".toList,
     .printE "This might indicate the agent is taking very long to respond".toList]
  | .raised msg => [.printE ("❌ Error running command: ".toList ++ msg)]

/-- CLI-invocation workflow: remoteMCP.py test_with_aws_cli. -/
def cliRun (env : CliEnv) : RunOutcome :=
  .finished (awsCliPreEvents ++ [.netAttempt] ++ cliProcEvents env)

/-- Trace of test_with_aws_cli when the subprocess times out. -/
def cliTimeoutTrace : List Event :=
  awsCliPreEvents ++ [.netAttempt] ++
    [.printE "⏱️  Command timed out after 2 minutes".toList,
     .printE "This might indicate the agent is taking very long to respond".toList]

/-- Diagnostic request payload built by test_with_boto3
(remoteMCP.py lines 115-124): the dict literal in its insertion order. -/
def boto3Payload : JValue :=
  .jobj [("jsonrpc".toList, .jstr "2.0".toList),
         ("id".toList, .jnum 1),
         ("method".toList, .jstr "tools/list".toList),
         ("params".toList, .jobj [("_meta".toList, .jobj [("progressToken".toList, .jnum 1)])])]

/-- Serialized payload text of test_with_boto3 (payload_json, line 126). -/
def boto3PayloadJson : List Char := renderJ boto3Payload

/-- Base64-encoded payload of test_with_boto3 (payload_base64, line 127). -/
def boto3PayloadBase64 : List Char := b64Encode (utf8Encode boto3PayloadJson)

/-- Body field of the boto3 response (remoteMCP.py lines 144-150): either
a readable stream or already-materialized data. -/
inductive BotoBody : Type
  | stream : List Char → BotoBody
  | plain : List Char → BotoBody

/-- Structured reply of the boto3 invoke call. -/
structure BotoResponse : Type where
  keys : List (List Char)
  body : Option BotoBody

/-- Outcome of the try block of test_with_boto3: an exception while
creating the client, an exception during the invoke call (each with its
text and the optional e.response detail), or a successful response. -/
inductive BotoOutcome : Type
  | clientFail : List Char → Option (List Char) → BotoOutcome
  | invokeFail : List Char → Option (List Char) → BotoOutcome
  | ok : BotoResponse → BotoOutcome

/-- Except-block prints of test_with_boto3 (remoteMCP.py lines 152-155). -/
def botoErrorEvents (msg : List Char) (resp : Option (List Char)) : List Event :=
  [.printE ("❌ Boto3 error: ".toList ++ msg)] ++
    match resp with
    | some r => [.printE ("Error response: ".toList ++ r)]
    | none => []

/-- SDK-invocation workflow: remoteMCP.py test_with_boto3. -/
def botoRun (out : BotoOutcome) : RunOutcome :=
  .finished
    ([.printE "\n🔍 Testing with boto3 (exact Wiz payload format)...".toList] ++
      match out with
      | .clientFail msg resp => botoErrorEvents msg resp
      | .invokeFail msg resp =>
        [.printE "📤 Using exact Wiz payload format".toList,
         .printE ("📦 Base64: ".toList ++ boto3PayloadBase64.take 50 ++ "...".toList),
         .netAttempt] ++ botoErrorEvents msg resp
      | .ok resp =>
        [.printE "📤 Using exact Wiz payload format".toList,
         .printE ("📦 Base64: ".toList ++ boto3PayloadBase64.take 50 ++ "...".toList),
         .netAttempt,
         .printE "✅ Boto3 invoke succeeded!".toList,
         .printKeys resp.keys] ++
          match resp.body with
          | none => []
          | some (.stream content) => [.printE ("📄 Response body: ".toList ++ content)]
          | some (.plain v) => [.printE ("📄 Response body: ".toList ++ v)])

/-- Removal of the console-output events from a trace, keeping the
control-flow-relevant events (exits, network attempts, file reads). -/
def erasePrints : List Event → List Event
  | [] => []
  | .printE _ :: rest => erasePrints rest
  | .printJson _ :: rest => erasePrints rest
  | .printKeys _ :: rest => erasePrints rest
  | .tracebackE _ :: rest => erasePrints rest
  | e :: rest => e :: erasePrints rest

/-- C1: for the fixed diagnostic payload record (jsonrpc "2.0", id 1,
method "tools/list", params._meta.progressToken 1), JSON serialization
followed by base64 encoding, then base64 decoding followed by JSON
deserialization, yields a record equal to the original. -/
theorem C1_payload_encode_decode_roundtrip :
    (match b64Decode (b64Encode (utf8Encode (renderJ awsCliPayload))) with
      | some bytes =>
        match utf8Decode bytes with
        | some text => parseTop text
        | none => none
      | none => none) = some awsCliPayload := by
  rfl

/-- Concatenation lemma for flatMapL. -/
theorem flatMapL_append {α β : Type} (f : α → List β) (xs ys : List α) :
    flatMapL f (xs ++ ys) = flatMapL f xs ++ flatMapL f ys := by
  induction xs with
  | nil => rfl
  | cons a rest ih => simp [flatMapL, ih]

/-- Python str.replace with a single-character pattern acts independently
on each character. -/
theorem pyReplace_single (o : Char) (nw : List Char) (s : List Char) :
    pyReplace [o] nw s = flatMapL (fun c => if c = o then nw else [c]) s := by
  induction s with
  | nil => simp [pyReplace, flatMapL]
  | cons c rest ih =>
    rw [pyReplace]
    by_cases hc : c = o
    · have hpre : [o].isPrefixOf (c :: rest) = true := by simp [List.isPrefixOf, hc]
      rw [dif_pos ⟨by simp, hpre⟩]
      simp [flatMapL, hc, ih]
    · have hpre : [o].isPrefixOf (c :: rest) = false := by
        simp [List.isPrefixOf]
        exact fun h => (hc h.symm).elim
      rw [dif_neg (by simp [hpre])]
      simp [flatMapL, hc, ih]

/-- C2: whenever the AGENT_ARN or BEARER_TOKEN environment variable is
absent (unset or empty), the streaming-session workflow exits with the
non-zero status 1 before any network access is attempted: its whole trace
is the configuration error print followed by exit 1, and contains no
network-attempt event. -/
theorem C2_missing_env_early_exit (env : WizEnv)
    (h : pyFalsy env.agentArn = true ∨ pyFalsy env.bearerToken = true) :
    wizMain env = .finished [.printE wizCfgError, .exitE 1] ∧
      Event.netAttempt ∉ [Event.printE wizCfgError, Event.exitE 1] ∧ (1 : Nat) ≠ 0 := by
  have hcond : (pyFalsy env.agentArn || pyFalsy env.bearerToken) = true := by
    rcases h with h | h <;> simp [h]
  exact ⟨by simp [wizMain, hcond], by simp, by simp⟩

/-- Witness for C2 at a concrete environment with AGENT_ARN unset. -/
theorem C2_missing_env_early_exit_witness :
    wizMain ⟨none, some "token".toList, .ok []⟩
        = .finished [.printE wizCfgError, .exitE 1] ∧
      Event.netAttempt ∉ [Event.printE wizCfgError, Event.exitE 1] ∧ (1 : Nat) ≠ 0 :=
  C2_missing_env_early_exit ⟨none, some "token".toList, .ok []⟩ (Or.inl rfl)

/-- C3: the percent-encoding step of the streaming-session workflow
(wizmcp.py line 20) replaces every colon with %3A and every slash with
%2F and leaves all other characters unchanged, for every input ARN. -/
theorem C3_percent_encoding (arn : List Char) :
    encodeArn arn = flatMapL percentEncodeSpecChar arn := by
  unfold encodeArn
  have hc : (":".toList : List Char) = [':'] := rfl
  have hs : ("/".toList : List Char) = ['/'] := rfl
  rw [hc, hs, pyReplace_single, pyReplace_single]
  induction arn with
  | nil => rfl
  | cons c rest ih =>
    simp only [flatMapL, flatMapL_append, ih]
    congr 1
    by_cases h1 : c = ':'
    · subst h1; decide
    · by_cases h2 : c = '/'
      · subst h2; decide
      · simp [flatMapL, percentEncodeSpecChar, h1, h2]

/-- C4: once the configuration check has passed, the streaming-session
workflow emits the long-term-credential warning if and only if the bearer
token starts with one of the known long-term-credential prefixes (AKIA or
ASIA); otherwise no warning events are produced. -/
theorem C4_long_term_warning (env : WizEnv) (arn tok : List Char)
    (ha : env.agentArn = some arn) (ht : env.bearerToken = some tok)
    (hcfg : (pyFalsy env.agentArn || pyFalsy env.bearerToken) = false) :
    wizMain env = .finished (wizNormalTrace arn tok env.outcome) ∧
      (wizWarnEvents tok ≠ [] ↔ ∃ p ∈ longTermPrefixes, p.isPrefixOf tok = true) := by
  have hcfg' : (pyFalsy (some arn) || pyFalsy (some tok)) = false := by
    rw [ha, ht] at hcfg; exact hcfg
  refine ⟨by simp [wizMain, ha, ht, hcfg'], ?_⟩
  unfold wizWarnEvents
  cases hA : "AKIA".toList.isPrefixOf tok with
  | true =>
    rw [if_pos (by simp [hA])]
    exact ⟨fun _ => ⟨"AKIA".toList, by simp [longTermPrefixes], hA⟩, fun _ => by simp⟩
  | false =>
    cases hS : "ASIA".toList.isPrefixOf tok with
    | true =>
      rw [if_pos (by simp [hS])]
      exact ⟨fun _ => ⟨"ASIA".toList, by simp [longTermPrefixes], hS⟩, fun _ => by simp⟩
    | false =>
      rw [if_neg (by simp [hA, hS])]
      constructor
      · exact fun h => absurd rfl h
      · rintro ⟨p, hp, hpre⟩
        simp [longTermPrefixes] at hp
        rcases hp with hp | hp <;> subst hp
        · have h' : "AKIA".toList.isPrefixOf tok = true := hpre
          rw [hA] at h'
          exact (Bool.false_ne_true h').elim
        · have h' : "ASIA".toList.isPrefixOf tok = true := hpre
          rw [hS] at h'
          exact (Bool.false_ne_true h').elim

/-- Witness for C4 at a concrete environment whose token starts with AKIA. -/
theorem C4_long_term_warning_witness :
    wizMain ⟨some "arn:aws:x".toList, some "AKIAEXAMPLE".toList, .ok []⟩
        = .finished (wizNormalTrace "arn:aws:x".toList "AKIAEXAMPLE".toList (.ok [])) ∧
      (wizWarnEvents "AKIAEXAMPLE".toList ≠ []
        ↔ ∃ p ∈ longTermPrefixes, p.isPrefixOf "AKIAEXAMPLE".toList = true) :=
  C4_long_term_warning ⟨some "arn:aws:x".toList, some "AKIAEXAMPLE".toList, .ok []⟩
    "arn:aws:x".toList "AKIAEXAMPLE".toList rfl rfl (by decide)

/-- A boolean known to be false is not true. -/
theorem neTrueOfFalse {b : Bool} (h : b = false) : ¬(b = true) := fun hc => by
  rw [h] at hc; exact Bool.false_ne_true hc

/-- Distribution of print-erasure over concatenation. -/
theorem erasePrints_append (xs ys : List Event) :
    erasePrints (xs ++ ys) = erasePrints xs ++ erasePrints ys := by
  induction xs with
  | nil => rfl
  | cons e rest ih => cases e <;> simp [erasePrints, ih]

/-- The guidance prints of the CLI classification are console output only. -/
theorem erasePrints_cliGuidance (s : List Char) : erasePrints (cliGuidanceEvents s) = [] := by
  unfold cliGuidanceEvents
  cases cliClassify s with
  | none => rfl
  | some g => cases g <;> rfl

/-- The classification prints of the streaming workflow are console output
only. -/
theorem erasePrints_wizClassify (e : List Char) : erasePrints (wizClassifyEvents e) = [] := by
  unfold wizClassifyEvents
  split
  · rfl
  · split
    · rfl
    · split <;> rfl

/-- C7: the JSON-RPC request record built by the SDK-invocation runner is
field-for-field equal to the record built by the CLI-invocation runner,
and both serialize and base64-encode to the same payload text. -/
theorem C7_same_payload_both_runners :
    awsCliPayload = boto3Payload ∧ awsCliPayloadJson = boto3PayloadJson ∧
      awsCliPayloadBase64 = boto3PayloadBase64 :=
  ⟨rfl, rfl, rfl⟩

/-- C5 counterexample: for an error text containing both AccessDenied and
ValidationException, the classification takes the access-denied branch and
not the validation branch, contradicting the claim read literally. -/
theorem C5_counterexample :
    containsSub "AccessDenied ValidationException".toList "ValidationException".toList = true ∧
      cliClassify "AccessDenied ValidationException".toList ≠ some .validationError ∧
      cliClassify "AccessDenied ValidationException".toList = some .accessDenied := by
  refine ⟨by decide, ?_, by decide⟩
  intro h
  have h2 : cliClassify "AccessDenied ValidationException".toList = some .accessDenied := by decide
  rw [h2] at h
  exact Guidance.noConfusion (Option.some.inj h)

/-- C5 (amended): on a non-zero exit, error text containing AccessDenied
takes the access-denied branch; error text containing ValidationException
but not AccessDenied takes the validation branch; error text containing
neither takes neither branch. -/
theorem C5_guidance_branches (s : List Char) :
    (containsSub s "AccessDenied".toList = true → cliClassify s = some .accessDenied) ∧
    (containsSub s "ValidationException".toList = true →
      containsSub s "AccessDenied".toList = false → cliClassify s = some .validationError) ∧
    (containsSub s "AccessDenied".toList = false →
      containsSub s "ValidationException".toList = false →
      cliClassify s ≠ some .accessDenied ∧ cliClassify s ≠ some .validationError) := by
  unfold cliClassify
  refine ⟨fun h => by rw [if_pos h],
    fun hv ha => by rw [if_neg (neTrueOfFalse ha), if_pos hv], fun ha hv => ?_⟩
  rw [if_neg (neTrueOfFalse ha), if_neg (neTrueOfFalse hv)]
  cases hr : containsSub s "ResourceNotFound".toList
  · exact ⟨fun hc => Option.noConfusion hc, fun hc => Option.noConfusion hc⟩
  · constructor <;> intro hc <;> exact Guidance.noConfusion (Option.some.inj hc)

/-- Witness for C5 at concrete error texts exercising each branch. -/
theorem C5_guidance_branches_witness :
    cliClassify "AccessDenied".toList = some .accessDenied ∧
      cliClassify "ValidationException".toList = some .validationError ∧
      (cliClassify "all good".toList ≠ some .accessDenied ∧
        cliClassify "all good".toList ≠ some .validationError) :=
  ⟨(C5_guidance_branches "AccessDenied".toList).1 (by decide),
   (C5_guidance_branches "ValidationException".toList).2.1 (by decide) (by decide),
   (C5_guidance_branches "all good".toList).2.2 (by decide) (by decide)⟩

/-- C6: when the external process times out, the CLI-invocation runner
prints the timeout-specific messages and its trace contains no attempt to
open or read the result artifact. -/
theorem C6_timeout_no_artifact_read (env : CliEnv) (h : env.proc = .timedOut) :
    cliRun env = .finished cliTimeoutTrace ∧
      ∀ f, Event.readFileAttempt f ∉ cliTimeoutTrace := by
  constructor
  · simp [cliRun, cliProcEvents, h, cliTimeoutTrace]
  · intro f
    simp [cliTimeoutTrace, awsCliPreEvents]

/-- Witness for C6 at a concrete timed-out environment. -/
theorem C6_timeout_no_artifact_read_witness :
    cliRun ⟨.timedOut, none⟩ = .finished cliTimeoutTrace ∧
      Event.readFileAttempt "output.json".toList ∉ cliTimeoutTrace :=
  ⟨(C6_timeout_no_artifact_read ⟨.timedOut, none⟩ rfl).1,
   (C6_timeout_no_artifact_read ⟨.timedOut, none⟩ rfl).2 "output.json".toList⟩

/-- C9: on a zero exit status the CLI-invocation runner reads output.json
and attempts to parse it: the run completes (nothing is raised) with the
read attempt in its trace; a missing file is reported by a print; content
that fails to parse is displayed raw; content that parses is displayed as
the parsed structure. -/
theorem C9_success_reads_and_parses (env : CliEnv) (out err : List Char)
    (h : env.proc = .completed 0 out err) :
    cliRun env = .finished (awsCliPreEvents ++ [.netAttempt]
        ++ ([.printE "✅ AWS CLI command succeeded!".toList] ++ cliReadEvents env.outputFile)) ∧
    (∀ f, Event.readFileAttempt "output.json".toList ∈ cliReadEvents f) ∧
    cliReadEvents none = [.readFileAttempt "output.json".toList,
      .printE "❌ Output file not created".toList] ∧
    (∀ content, parseTop content = none → cliReadEvents (some content) =
      [.readFileAttempt "output.json".toList, .printE "📄 Output file contents:".toList,
       .printE content, .printE "\n📝 Raw output (not JSON):".toList, .printE content]) ∧
    (∀ content j, parseTop content = some j → cliReadEvents (some content) =
      [.readFileAttempt "output.json".toList, .printE "📄 Output file contents:".toList,
       .printE content, .printE "\n📋 Parsed JSON response:".toList, .printJson j]) := by
  refine ⟨by simp [cliRun, cliProcEvents, h], fun f => ?_, rfl, fun content hp => ?_, fun content j hp => ?_⟩
  · cases f <;> simp [cliReadEvents]
  · simp [cliReadEvents, hp]
  · simp [cliReadEvents, hp]

/-- Witness for C9 at a concrete zero-exit environment whose artifact
contains non-JSON text. -/
theorem C9_success_reads_and_parses_witness :
    cliRun ⟨.completed 0 [] [], some "hello".toList⟩ = .finished (awsCliPreEvents ++ [.netAttempt]
        ++ ([.printE "✅ AWS CLI command succeeded!".toList]
          ++ cliReadEvents (some "hello".toList))) ∧
      cliReadEvents (some "hello".toList) =
        [.readFileAttempt "output.json".toList, .printE "📄 Output file contents:".toList,
         .printE "hello".toList, .printE "\n📝 Raw output (not JSON):".toList,
         .printE "hello".toList] :=
  ⟨(C9_success_reads_and_parses ⟨.completed 0 [] [], some "hello".toList⟩ [] [] rfl).1,
   (C9_success_reads_and_parses ⟨.completed 0 [] [], some "hello".toList⟩ [] [] rfl).2.2.2.1
     "hello".toList rfl⟩

/-- C10: the three substring checks form an if/elif chain, so they are
mutually exclusive with AccessDenied taking precedence over
ValidationException, which takes precedence over ResourceNotFound: text
containing AccessDenied always classifies as access-denied (even when the
other markers are present), ValidationException only applies without
AccessDenied, and ResourceNotFound only applies without both. -/
theorem C10_classification_precedence (s : List Char) :
    (containsSub s "AccessDenied".toList = true → cliClassify s = some .accessDenied) ∧
    (containsSub s "AccessDenied".toList = false →
      containsSub s "ValidationException".toList = true →
      cliClassify s = some .validationError) ∧
    (containsSub s "AccessDenied".toList = false →
      containsSub s "ValidationException".toList = false →
      containsSub s "ResourceNotFound".toList = true →
      cliClassify s = some .resourceNotFound) := by
  unfold cliClassify
  exact ⟨fun h => by rw [if_pos h],
    fun ha hv => by rw [if_neg (neTrueOfFalse ha), if_pos hv],
    fun ha hv hr => by rw [if_neg (neTrueOfFalse ha), if_neg (neTrueOfFalse hv), if_pos hr]⟩

/-- Witness for C10 at a concrete error text containing all three markers. -/
theorem C10_classification_precedence_witness :
    cliClassify "AccessDenied ValidationException ResourceNotFound".toList
        = some .accessDenied ∧
      cliClassify "ValidationException ResourceNotFound".toList = some .validationError ∧
      cliClassify "ResourceNotFound".toList = some .resourceNotFound :=
  ⟨(C10_classification_precedence "AccessDenied ValidationException ResourceNotFound".toList).1
     (by decide),
   (C10_classification_precedence "ValidationException ResourceNotFound".toList).2.1
     (by decide) (by decide),
   (C10_classification_precedence "ResourceNotFound".toList).2.2
     (by decide) (by decide) (by decide)⟩

/-- C8: every exception arising inside any of the three workflows after
the configuration check is caught at the workflow's outermost scope, so
every run completes with a trace instead of propagating; and the substring
classification of error text only contributes console output: erasing the
print events leaves traces that do not depend on the error text. -/
theorem C8_exceptions_caught_classification_output_only :
    (∀ env : CliEnv, ∃ t, cliRun env = .finished t) ∧
    (∀ out : BotoOutcome, ∃ t, botoRun out = .finished t) ∧
    (∀ env : WizEnv, ∃ t, wizMain env = .finished t) ∧
    (∀ (rc : Int) (out err1 err2 : List Char) (f : Option (List Char)), rc ≠ 0 →
      erasePrints (cliProcEvents ⟨.completed rc out err1, f⟩) =
        erasePrints (cliProcEvents ⟨.completed rc out err2, f⟩)) ∧
    (∀ e1 e2 : List Char, erasePrints (wizErrorEvents e1) = erasePrints (wizErrorEvents e2)) := by
  refine ⟨fun env => ⟨_, rfl⟩, fun out => ⟨_, rfl⟩, fun env => ?_, ?_, ?_⟩
  · unfold wizMain
    split
    · exact ⟨_, rfl⟩
    · exact ⟨_, rfl⟩
  · intro rc out err1 err2 f h
    simp only [cliProcEvents]
    rw [if_neg h, if_neg h, erasePrints_append, erasePrints_append,
      erasePrints_cliGuidance, erasePrints_cliGuidance]
    rfl
  · intro e1 e2
    unfold wizErrorEvents
    rw [erasePrints_append, erasePrints_append, erasePrints_wizClassify, erasePrints_wizClassify]
    rfl

/-- Witness for C8 at concrete environments: a raised exception in the CLI
runner still completes, and two different non-zero-exit error texts leave
the same print-erased trace. -/
theorem C8_exceptions_caught_witness :
    (∃ t, cliRun ⟨.raised "boom".toList, none⟩ = .finished t) ∧
      erasePrints (cliProcEvents ⟨.completed 254 [] "AccessDenied".toList, none⟩) =
        erasePrints (cliProcEvents ⟨.completed 254 [] "no markers here".toList, none⟩) :=
  ⟨C8_exceptions_caught_classification_output_only.1 ⟨.raised "boom".toList, none⟩,
   C8_exceptions_caught_classification_output_only.2.2.2.1 254 [] "AccessDenied".toList
     "no markers here".toList none (by decide)⟩
